import Mathlib

/-!
Verification development for the rate-limiting and security-monitoring
subsystem (src/api/security/rate_limiter.py, src/api/security/monitoring.py).

The Python code talks to a remote Redis store.  We embed it shallowly:

* All mutable Redis state relevant to one rate-limit base key (the sorted-set
  window, the `:blocked` record, the `:violations` counter, and the TTLs the
  code sets on them) is a `KeyState`; the whole store is a function from base
  key strings to `KeyState`.
* A sorted-set member `f"{now}:{id(self)}"` with score `now` is modelled as
  the pair `(now, instId)`; `instId` models the CPython id of self, which is
  fixed for a given (cached, singleton) `RateLimiter` instance.
* Redis unavailability and the exception sites the Python code guards with
  `try/except` are modelled by boolean fault flags in `RedisBehavior`; a flag
  set means that step raises.  A step that raises performs no mutation in the
  model (for the prune+count step the code may have pruned before `zcard`
  raised; no claim depends on that partial write).
* `hashlib.sha256(...).hexdigest()[:16]` is an external library primitive,
  abstracted as an explicit `digest16 : String → String` argument applied to
  the whole identifier, exactly where the source applies it.
-/

inductive RateLimitResult where
  | ALLOWED
  | RATE_LIMITED
  | BLOCKED
  deriving DecidableEq, Repr

/-- Metadata dictionary returned by `RateLimiter.check`.  Optional fields model
dictionary keys that are present only on some paths; `hasError` models the
presence of the `"error"` key. -/
structure RLMeta where
  remaining : Nat
  resetAt : Int
  blockedUntil : Option Int := none
  violations : Option Nat := none
  hasError : Bool := false
  deriving DecidableEq, Repr

/-- Redis state behind one rate-limit base key: the sliding-window sorted set
(members `(timestamp, instId)`, score = timestamp), the `:blocked` record, the
`:violations` counter (0 = key absent, matching `INCR` on a missing key), and
the TTLs the code sets. -/
structure KeyState where
  window : List (Int × Nat)
  windowTTL : Option Int
  blocked : Option Int
  blockedTTL : Option Int
  violations : Nat
  violationsTTL : Option Int
  deriving DecidableEq, Repr

def emptyKeyState : KeyState :=
  { window := [], windowTTL := none, blocked := none, blockedTTL := none,
    violations := 0, violationsTTL := none }

def Store : Type := String → KeyState

def Store.update (σ : Store) (k : String) (v : KeyState) : Store :=
  fun x => if x = k then v else σ x

def emptyStore : Store := fun _ => emptyKeyState

/-- Fault model for the store interactions of one `check` call: `available`
models `_get_redis()` returning a client; each `…Fails` flag makes the
corresponding `try`-guarded step raise. -/
structure RedisBehavior where
  available : Bool
  pruneCountFails : Bool
  violationStepFails : Bool
  insertFails : Bool
  deriving DecidableEq, Repr

/-- Healthy store: reachable and no step raises. -/
def rlOk : RedisBehavior :=
  { available := true, pruneCountFails := false, violationStepFails := false,
    insertFails := false }

structure RateLimiter where
  max_requests : Nat
  window_seconds : Int
  prefixStr : String
  fail_closed : Bool
  deriving DecidableEq, Repr

/-- Model of `RateLimiter._get_key`: identifiers longer than 64 characters are replaced
by the first 16 hex characters of a digest of the whole identifier. -/
def makeKey (digest16 : String → String) (prefixStr identifier : String) : String :=
  if identifier.length > 64 then prefixStr ++ ":" ++ digest16 identifier
  else prefixStr ++ ":" ++ identifier

def RateLimiter.get_key (L : RateLimiter) (digest16 : String → String)
    (identifier : String) : String :=
  makeKey digest16 L.prefixStr identifier

/-- Model of the call zremrangebyscore from 0 to window_start: drop members whose score
lies in the inclusive range `[0, window_start]`. -/
def pruneWindow (w : List (Int × Nat)) (windowStart : Int) : List (Int × Nat) :=
  w.filter (fun e => decide (¬ (0 ≤ e.1 ∧ e.1 ≤ windowStart)))

/-- Model of the zadd call: the member is the pair `(now, instId)` and
the score equals the timestamp of the member itself: re-adding an existing member
updates its score (a no-op here) instead of inserting a second entry. -/
def zaddMember (w : List (Int × Nat)) (member : Int × Nat) : List (Int × Nat) :=
  if member ∈ w then w else w ++ [member]

/-- Window phase of `RateLimiter.check` (everything after the block-record
check): prune + count, over-quota violation handling with exponential-backoff
blocking, and the window insertion on the ALLOWED path. -/
def RateLimiter.windowPhase (L : RateLimiter) (b : RedisBehavior) (instId : Nat)
    (now : Int) (key : String) (σ : Store) : RateLimitResult × RLMeta × Store :=
  let ks := σ key
  if b.pruneCountFails then
    if L.fail_closed then
      (.RATE_LIMITED,
        { remaining := 0, resetAt := now + L.window_seconds, hasError := true }, σ)
    else
      (.ALLOWED, { remaining := L.max_requests, resetAt := now + L.window_seconds }, σ)
  else
    let pruned := pruneWindow ks.window (now - L.window_seconds)
    let count := pruned.length
    let remaining := L.max_requests - count
    let reset_at := now + L.window_seconds
    if count ≥ L.max_requests then
      if b.violationStepFails then
        (.RATE_LIMITED, { remaining := 0, resetAt := reset_at },
          Store.update σ key { ks with window := pruned })
      else
        let v := ks.violations + 1
        let ks1 : KeyState :=
          { ks with window := pruned, violations := v, violationsTTL := some 3600 }
        if v ≥ 3 then
          let dur : Nat := min 3600 (60 * 2 ^ (v - 3))
          let bu : Int := now + (dur : Int)
          (.BLOCKED,
            { remaining := 0, resetAt := bu, blockedUntil := some bu,
              violations := some v },
            Store.update σ key
              { ks1 with blocked := some bu, blockedTTL := some (dur : Int) })
        else
          (.RATE_LIMITED, { remaining := 0, resetAt := reset_at },
            Store.update σ key ks1)
    else
      if b.insertFails then
        (.ALLOWED, { remaining := remaining - 1, resetAt := reset_at },
          Store.update σ key { ks with window := pruned })
      else
        (.ALLOWED, { remaining := remaining - 1, resetAt := reset_at },
          Store.update σ key
            { ks with window := zaddMember pruned (now, instId),
                      windowTTL := some (L.window_seconds + 1) })

/-- Model of `RateLimiter.check`: availability check, block-record check, then the
window phase. -/
def RateLimiter.check (L : RateLimiter) (digest16 : String → String)
    (b : RedisBehavior) (instId : Nat) (now : Int) (identifier : String)
    (σ : Store) : RateLimitResult × RLMeta × Store :=
  if b.available = false then
    if L.fail_closed then
      (.RATE_LIMITED,
        { remaining := 0, resetAt := now + L.window_seconds, hasError := true }, σ)
    else
      (.ALLOWED, { remaining := L.max_requests, resetAt := now + L.window_seconds }, σ)
  else
    let key := L.get_key digest16 identifier
    match (σ key).blocked with
    | some bu =>
      if bu > now then
        (.BLOCKED, { remaining := 0, resetAt := bu, blockedUntil := some bu }, σ)
      else
        L.windowPhase b instId now key σ
    | none => L.windowPhase b instId now key σ

/-- Evaluates to `true` when the block record of the identifier is absent or already expired at
`now`, so `check` proceeds past the block-record check. -/
def notBlockedNow (ks : KeyState) (now : Int) : Bool :=
  match ks.blocked with
  | some bu => decide (bu ≤ now)
  | none => true

/-- Sequential `check` calls at the given timestamps, threading the store; the
same `instId` throughout models repeated calls on one cached limiter instance. -/
def runChecks (L : RateLimiter) (digest16 : String → String) (b : RedisBehavior)
    (instId : Nat) (identifier : String) :
    List Int → Store → List (RateLimitResult × RLMeta) × Store
  | [], σ => ([], σ)
  | t :: ts, σ =>
    match L.check digest16 b instId t identifier σ with
    | (r, m, σ1) =>
      match runChecks L digest16 b instId identifier ts σ1 with
      | (rest, σf) => ((r, m) :: rest, σf)

/-- Static tier table `RateLimitConfig`, `name ↦ (max_requests,
window_seconds, prefix)`. -/
def rateLimitConfig : String → Option (Nat × Int × String)
  | "GENERAL" => some (60, 60, "ratelimit:general")
  | "GAME_CREATE" => some (3, 60, "ratelimit:create")
  | "JOIN" => some (10, 60, "ratelimit:join")
  | "GUESS" => some (30, 60, "ratelimit:guess")
  | "CHAT" => some (15, 60, "ratelimit:chat")
  | "EMBEDDING" => some (20, 60, "ratelimit:embedding")
  | "EMBEDDING_DAILY" => some (500, 86400, "ratelimit:embedding_daily")
  | "AUTH" => some (10, 300, "ratelimit:auth")
  | "WEBHOOK" => some (30, 60, "ratelimit:webhook")
  | _ => none

def limiterOf (cfg : Nat × Int × String) (fc : Bool) : RateLimiter :=
  { max_requests := cfg.1, window_seconds := cfg.2.1, prefixStr := cfg.2.2,
    fail_closed := fc }

/-- The `GAME_CREATE` tier limiter (fail-closed), as built by the registry. -/
def gameCreateLimiter : RateLimiter := limiterOf (3, 60, "ratelimit:create") true

theorem Store.update_same (σ : Store) (k : String) (v : KeyState) :
    Store.update σ k v k = v := by
  simp [Store.update]

theorem Store.update_other (σ : Store) (k k2 : String) (v : KeyState) (h : k2 ≠ k) :
    Store.update σ k v k2 = σ k2 := by
  simp [Store.update, h]

/-- With the store reachable and the block record absent or expired, `check`
is the window phase on the key of the identifier. -/
theorem check_notBlocked_eq (L : RateLimiter) (digest16 : String → String)
    (b : RedisBehavior) (instId : Nat) (now : Int) (identifier : String) (σ : Store)
    (hA : b.available = true)
    (hNB : notBlockedNow (σ (L.get_key digest16 identifier)) now = true) :
    L.check digest16 b instId now identifier σ =
      L.windowPhase b instId now (L.get_key digest16 identifier) σ := by
  unfold RateLimiter.check
  rw [hA]
  simp only [Bool.true_eq_false, if_false]
  cases hb : (σ (L.get_key digest16 identifier)).blocked with
  | none => simp [hb]
  | some bu =>
    have hle : bu ≤ now := by simpa [notBlockedNow, hb] using hNB
    simp only [hb]
    rw [if_neg (by omega : ¬ bu > now)]

/-- Claim C1, failing-input evaluation.  The claim says that for a fresh
identifier every tier admits exactly `maxRequests` checks inside one window
(the (m+1)-th being RATE_LIMITED with remaining 0) because each ALLOWED check
inserts a window entry whose member key is unique per call.  On the
GAME_CREATE tier (max 3 per 60 s) four calls in the same second on the one
cached limiter instance (`instId = 7` models the constant `id(self)`) all
return ALLOWED with remaining 2, 1, 1, 1: the member `f"{now}:{id(self)}"` of
every call after the first coincides with the member of the first call, `zadd`
overwrites it, and the window count never passes 1. -/
theorem c1_same_second_overwrite_eval :
    ((runChecks gameCreateLimiter (fun s => s) rlOk 7 "9.9.9.9" [100, 100, 100, 100]
      emptyStore).1.map (fun p => (p.1, p.2.remaining))) =
    [(.ALLOWED, 2), (.ALLOWED, 1), (.ALLOWED, 1), (.ALLOWED, 1)] := by
  decide

/-- Claim C2: when the store client is unavailable at the start of `check`, or
a store error occurs during the window prune/count step (the block-record
check, which precedes that step, having passed), `check` returns RATE_LIMITED
with remaining 0 if `fail_closed`, and ALLOWED with the full `max_requests`
quota otherwise, with `resetAt = now + window_seconds` — for every identifier
and store state. -/
theorem c2_store_failure_policy (L : RateLimiter) (digest16 : String → String)
    (b : RedisBehavior) (instId : Nat) (now : Int) (identifier : String) (σ : Store)
    (h : b.available = false ∨
         (b.available = true ∧ b.pruneCountFails = true ∧
          notBlockedNow (σ (L.get_key digest16 identifier)) now = true)) :
    (L.check digest16 b instId now identifier σ).1 =
      (if L.fail_closed then RateLimitResult.RATE_LIMITED else RateLimitResult.ALLOWED) ∧
    (L.check digest16 b instId now identifier σ).2.1.remaining =
      (if L.fail_closed then 0 else L.max_requests) ∧
    (L.check digest16 b instId now identifier σ).2.1.resetAt = now + L.window_seconds := by
  rcases h with h | ⟨hA, hP, hNB⟩
  · unfold RateLimiter.check
    rw [h]
    by_cases hf : L.fail_closed <;> simp [hf]
  · unfold RateLimiter.check
    rw [hA]
    simp only [Bool.true_eq_false, if_false]
    cases hb : (σ (L.get_key digest16 identifier)).blocked with
    | none =>
      simp only [hb]
      unfold RateLimiter.windowPhase
      rw [hP]
      by_cases hf : L.fail_closed <;> simp [hf]
    | some bu =>
      simp only [hb]
      have hle : bu ≤ now := by
        simpa [notBlockedNow, hb] using hNB
      rw [if_neg (by omega : ¬ bu > now)]
      unfold RateLimiter.windowPhase
      rw [hP]
      by_cases hf : L.fail_closed <;> simp [hf]

/-- Witness for C2: a GAME_CREATE limiter with an unreachable store denies the
very first check of a fresh identifier with remaining 0. -/
theorem c2_store_failure_policy_witness :
    (gameCreateLimiter.check (fun s => s)
        { available := false, pruneCountFails := false, violationStepFails := false,
          insertFails := false } 7 100 "9.9.9.9" emptyStore).1 =
      RateLimitResult.RATE_LIMITED := by
  have h := c2_store_failure_policy gameCreateLimiter (fun s => s)
    { available := false, pruneCountFails := false, violationStepFails := false,
      insertFails := false } 7 100 "9.9.9.9" emptyStore (Or.inl rfl)
  simpa using h.1

/-- Claim C3: a present block record with unblock timestamp strictly in the
future makes `check` return BLOCKED with that timestamp as `blockedUntil` (and
as `resetAt`), leaving the store untouched — no prune, count or insertion —
for every window and violation history, including an empty window. -/
theorem c3_blocked_precedence (L : RateLimiter) (digest16 : String → String)
    (b : RedisBehavior) (instId : Nat) (now bu : Int) (identifier : String) (σ : Store)
    (hA : b.available = true)
    (hB : (σ (L.get_key digest16 identifier)).blocked = some bu)
    (hFut : now < bu) :
    L.check digest16 b instId now identifier σ =
      (.BLOCKED, { remaining := 0, resetAt := bu, blockedUntil := some bu }, σ) := by
  unfold RateLimiter.check
  rw [hA]
  simp only [Bool.true_eq_false, if_false, hB]
  rw [if_pos (by omega : bu > now)]

/-- Witness for C3: an identifier blocked until 1000 is still BLOCKED at 100
with an empty window, and the store is unchanged. -/
theorem c3_blocked_precedence_witness :
    gameCreateLimiter.check (fun s => s) rlOk 7 100 "9.9.9.9"
        (Store.update emptyStore "ratelimit:create:9.9.9.9"
          { emptyKeyState with blocked := some 1000 }) =
      (.BLOCKED, { remaining := 0, resetAt := 1000, blockedUntil := some 1000 },
        Store.update emptyStore "ratelimit:create:9.9.9.9"
          { emptyKeyState with blocked := some 1000 }) := by
  exact c3_blocked_precedence gameCreateLimiter (fun s => s) rlOk 7 100 1000 "9.9.9.9"
    (Store.update emptyStore "ratelimit:create:9.9.9.9"
      { emptyKeyState with blocked := some 1000 })
    rfl (by decide) (by decide)

/-- Claim C4: when a reachable-store check finds the pruned window at or over
quota, the violation counter becomes its old value plus one with a 3600 s
expiry; with the incremented count `v < 3` the result is RATE_LIMITED with
remaining 0 and no block record is written, and with `v ≥ 3` the result is
BLOCKED with duration exactly `min 3600 (60 * 2 ^ (v - 3))` seconds,
`blockedUntil = now + duration` (also returned as `resetAt`), and a block
record with that value and that TTL. -/
theorem c4_violation_backoff (L : RateLimiter) (digest16 : String → String)
    (b : RedisBehavior) (instId : Nat) (now : Int) (identifier : String) (σ : Store)
    (key : String) (ks : KeyState) (v dur : Nat)
    (hkey : key = L.get_key digest16 identifier) (hks : ks = σ key)
    (hv : v = ks.violations + 1) (hdur : dur = min 3600 (60 * 2 ^ (v - 3)))
    (hA : b.available = true) (hP : b.pruneCountFails = false)
    (hV : b.violationStepFails = false)
    (hNB : notBlockedNow ks now = true)
    (hOver : (pruneWindow ks.window (now - L.window_seconds)).length ≥ L.max_requests) :
    (((L.check digest16 b instId now identifier σ).2.2 key).violations = v ∧
     ((L.check digest16 b instId now identifier σ).2.2 key).violationsTTL = some 3600) ∧
    (v < 3 →
      (L.check digest16 b instId now identifier σ).1 = .RATE_LIMITED ∧
      (L.check digest16 b instId now identifier σ).2.1.remaining = 0 ∧
      (L.check digest16 b instId now identifier σ).2.1.resetAt = now + L.window_seconds ∧
      ((L.check digest16 b instId now identifier σ).2.2 key).blocked = ks.blocked) ∧
    (3 ≤ v →
      (L.check digest16 b instId now identifier σ).1 = .BLOCKED ∧
      (L.check digest16 b instId now identifier σ).2.1.remaining = 0 ∧
      (L.check digest16 b instId now identifier σ).2.1.blockedUntil =
        some (now + (dur : Int)) ∧
      (L.check digest16 b instId now identifier σ).2.1.resetAt = now + (dur : Int) ∧
      (L.check digest16 b instId now identifier σ).2.1.violations = some v ∧
      ((L.check digest16 b instId now identifier σ).2.2 key).blocked =
        some (now + (dur : Int)) ∧
      ((L.check digest16 b instId now identifier σ).2.2 key).blockedTTL =
        some (dur : Int)) := by
  subst hkey hks hv hdur
  rw [check_notBlocked_eq L digest16 b instId now identifier σ hA hNB]
  by_cases h3 : (σ (L.get_key digest16 identifier)).violations + 1 ≥ 3
  · simp only [RateLimiter.windowPhase, hP, hV, Bool.false_eq_true, if_false]
    rw [if_pos hOver, if_pos h3]
    refine ⟨⟨?_, ?_⟩, fun hlt => absurd h3 (by omega),
      fun _ => ⟨?_, ?_, ?_, ?_, ?_, ?_, ?_⟩⟩ <;> simp [Store.update_same]
  · simp only [RateLimiter.windowPhase, hP, hV, Bool.false_eq_true, if_false]
    rw [if_pos hOver, if_neg h3]
    refine ⟨⟨?_, ?_⟩, fun _ => ⟨?_, ?_, ?_, ?_⟩, fun hge => absurd hge h3⟩ <;>
      simp [Store.update_same]

/-- Witness for C4: a GAME_CREATE identifier with a full window and two prior
violations is BLOCKED on its third violation for exactly 60 seconds
(blockedUntil = 100 + 60), with the counter at 3 and a 3600 s counter TTL. -/
theorem c4_violation_backoff_witness :
    ((gameCreateLimiter.check (fun s => s) rlOk 7 100 "9.9.9.9"
        (Store.update emptyStore "ratelimit:create:9.9.9.9"
          { emptyKeyState with window := [(100, 0), (100, 1), (100, 2)], violations := 2 })).1
        = .BLOCKED ∧
     (gameCreateLimiter.check (fun s => s) rlOk 7 100 "9.9.9.9"
        (Store.update emptyStore "ratelimit:create:9.9.9.9"
          { emptyKeyState with window := [(100, 0), (100, 1), (100, 2)], violations := 2 })).2.1.blockedUntil
        = some 160) ∧
    ((gameCreateLimiter.check (fun s => s) rlOk 7 100 "9.9.9.9"
        (Store.update emptyStore "ratelimit:create:9.9.9.9"
          { emptyKeyState with window := [(100, 0), (100, 1), (100, 2)], violations := 2 })).2.2
        "ratelimit:create:9.9.9.9").violations = 3 := by
  have h := c4_violation_backoff gameCreateLimiter (fun s => s) rlOk 7 100 "9.9.9.9"
    (Store.update emptyStore "ratelimit:create:9.9.9.9"
      { emptyKeyState with window := [(100, 0), (100, 1), (100, 2)], violations := 2 })
    "ratelimit:create:9.9.9.9"
    { emptyKeyState with window := [(100, 0), (100, 1), (100, 2)], violations := 2 }
    3 60 (by decide) (by decide) (by decide) (by decide) (by decide) (by decide)
    (by decide) (by decide) (by decide)
  obtain ⟨⟨hvio, _⟩, _, hblk⟩ := h
  have hb := hblk (by decide)
  refine ⟨⟨hb.1, ?_⟩, hvio⟩
  rw [hb.2.2.1]
  decide

/-- Claim C10: on the ALLOWED path (reachable store, block passed, pruned
count under quota), a failure of the window-insertion step is swallowed and
`check` still returns ALLOWED with `remaining = max_requests - count - 1`,
regardless of `fail_closed`; the stored window is just the pruned window — no
entry for this call is left behind and the window TTL is not refreshed. -/
theorem c10_insert_failure_still_allowed (L : RateLimiter)
    (digest16 : String → String) (b : RedisBehavior) (instId : Nat) (now : Int)
    (identifier : String) (σ : Store) (key : String) (ks : KeyState)
    (hkey : key = L.get_key digest16 identifier) (hks : ks = σ key)
    (hA : b.available = true) (hP : b.pruneCountFails = false)
    (hI : b.insertFails = true)
    (hNB : notBlockedNow ks now = true)
    (hUnder : (pruneWindow ks.window (now - L.window_seconds)).length <
      L.max_requests) :
    L.check digest16 b instId now identifier σ =
      (.ALLOWED,
        { remaining :=
            L.max_requests - (pruneWindow ks.window (now - L.window_seconds)).length - 1,
          resetAt := now + L.window_seconds },
        Store.update σ key
          { ks with window := pruneWindow ks.window (now - L.window_seconds) }) := by
  subst hkey hks
  rw [check_notBlocked_eq L digest16 b instId now identifier σ hA hNB]
  have hno : ¬ ((pruneWindow (σ (L.get_key digest16 identifier)).window
      (now - L.window_seconds)).length ≥ L.max_requests) := by omega
  simp only [RateLimiter.windowPhase, hP, hI, Bool.false_eq_true, if_false, hno,
    if_true]

/-- Witness for C10: with one live window entry, a failing insertion on a
fail-closed GAME_CREATE limiter still yields ALLOWED with remaining 1 and
leaves only the pruned entry in the store. -/
theorem c10_insert_failure_still_allowed_witness :
    gameCreateLimiter.check (fun s => s)
        { available := true, pruneCountFails := false, violationStepFails := false,
          insertFails := true } 7 100 "9.9.9.9"
        (Store.update emptyStore "ratelimit:create:9.9.9.9"
          { emptyKeyState with window := [(90, 7)] }) =
      (.ALLOWED, { remaining := 1, resetAt := 160 },
        Store.update
          (Store.update emptyStore "ratelimit:create:9.9.9.9"
            { emptyKeyState with window := [(90, 7)] })
          "ratelimit:create:9.9.9.9"
          { emptyKeyState with window := [(90, 7)] }) := by
  have h := c10_insert_failure_still_allowed gameCreateLimiter (fun s => s)
    { available := true, pruneCountFails := false, violationStepFails := false,
      insertFails := true } 7 100 "9.9.9.9"
    (Store.update emptyStore "ratelimit:create:9.9.9.9"
      { emptyKeyState with window := [(90, 7)] })
    "ratelimit:create:9.9.9.9" { emptyKeyState with window := [(90, 7)] }
    rfl rfl (by decide) (by decide) (by decide) rfl (by decide)
  exact h

/-- Claim C8: identifiers of length at most 64 are used verbatim in the store
key, and identifiers longer than 64 characters are keyed through the digest of
the entire identifier string, so two long identifiers whose digest prefixes
differ get distinct store keys.  `digest16` abstracts the external primitive
`hashlib.sha256(identifier.encode()).hexdigest()[:16]`; the source applies it
to the whole identifier, which is what makes the distinctness conditional only
on the digests differing. -/
theorem c8_long_identifier_hashing (digest16 : String → String) (L : RateLimiter) :
    (∀ a b : String, 64 < a.length → 64 < b.length → digest16 a ≠ digest16 b →
      L.get_key digest16 a ≠ L.get_key digest16 b) ∧
    (∀ a : String, a.length ≤ 64 →
      L.get_key digest16 a = L.prefixStr ++ ":" ++ a) := by
  constructor
  · intro a b ha hb hd hk
    apply hd
    unfold RateLimiter.get_key makeKey at hk
    rw [if_pos ha, if_pos hb] at hk
    have hdata := String.data_eq_of_eq hk
    rw [String.data_append, String.data_append] at hdata
    exact String.ext (List.append_cancel_left hdata)
  · intro a ha
    unfold RateLimiter.get_key makeKey
    rw [if_neg (by omega : ¬ a.length > 64)]

/-- Witness for C8: two 65-character identifiers that differ only in their
last character (hence only after the 64th) get distinct keys under an
injective stand-in digest, and a short identifier is used verbatim. -/
theorem c8_long_identifier_hashing_witness :
    gameCreateLimiter.get_key (fun s => s) (String.mk (List.replicate 65 'a')) ≠
      gameCreateLimiter.get_key (fun s => s)
        (String.mk (List.replicate 64 'a' ++ ['b'])) ∧
    gameCreateLimiter.get_key (fun s => s) "9.9.9.9" =
      "ratelimit:create" ++ ":" ++ "9.9.9.9" := by
  constructor
  · exact (c8_long_identifier_hashing (fun s => s) gameCreateLimiter).1
      (String.mk (List.replicate 65 'a')) (String.mk (List.replicate 64 'a' ++ ['b']))
      (by decide) (by decide) (by decide)
  · exact (c8_long_identifier_hashing (fun s => s) gameCreateLimiter).2
      "9.9.9.9" (by decide)

/-- Registry cache: the module-level `_rate_limiters` dict, keyed by the
`f"{config_name}:{fail_closed}"` cache key, modelled as the pair
`(config_name, fail_closed)`. -/
abbrev RegistryCache : Type := List ((String × Bool) × RateLimiter)

def cacheLookup (name : String) (fc : Bool) : RegistryCache → Option RateLimiter
  | [] => none
  | (k, v) :: rest => if k = (name, fc) then some v else cacheLookup name fc rest

/-- Outcome of looking a class attribute of `RateLimitConfig` up, as
`get_rate_limiter` consumes it: one of the nine tier dicts (subscriptable
with the three tier keys), or some other Python object — class docstring,
method, mappingproxy, ... — for which `config["max_requests"]` raises a
TypeError or KeyError. -/
inductive ConfigAttr where
  | tierDict (cfg : Nat × Int × String)
  | otherAttr
  deriving DecidableEq, Repr

/-- Error raised out of `get_rate_limiter`: the explicit
`ValueError(f"Unknown rate limit config: ...")`, or the TypeError/KeyError
from subscripting a non-dict class attribute with `"max_requests"`. -/
inductive RegistryError where
  | valueError (msg : String)
  | subscriptError
  deriving DecidableEq, Repr

/-- Model of `getattr(RateLimitConfig, config_name, None)` as used on the
validation line of `get_rate_limiter`.  `RateLimitConfig` is a class, so
besides the nine tier entries `getattr` also finds its other class
attributes; `dunders` is that set of non-tier attribute names with non-None
values (its exact extent depends on the CPython version, but it always
contains at least `"__doc__"`, since the class has a docstring).  A name that
is no attribute at all, or whose attribute value is None (such as
`"__hash__"` on this dataclass), yields `none`, which the code then treats as
unknown. -/
def classGetattr (dunders : List String) (name : String) : Option ConfigAttr :=
  match rateLimitConfig name with
  | some cfg => some (.tierDict cfg)
  | none => if name ∈ dunders then some .otherAttr else none

/-- Model of `get_rate_limiter`: return the cached limiter for `(config_name,
fail_closed)` if present; otherwise look the name up with `getattr`, raising
`ValueError(f"Unknown rate limit config: ...")` when that gives None, raising
the subscripting TypeError/KeyError when it gives a non-dict class attribute,
and caching a limiter built from the tier entry otherwise. -/
def get_rate_limiter (dunders : List String) (name : String) (fc : Bool)
    (cache : RegistryCache) : Except RegistryError (RateLimiter × RegistryCache) :=
  match cacheLookup name fc cache with
  | some rl => .ok (rl, cache)
  | none =>
    match classGetattr dunders name with
    | none => .error (.valueError ("Unknown rate limit config: " ++ name))
    | some .otherAttr => .error .subscriptError
    | some (.tierDict cfg) =>
      .ok (limiterOf cfg fc, ((name, fc), limiterOf cfg fc) :: cache)

/-- Caches reachable from the empty `_rate_limiters` dict: every entry was
built by `get_rate_limiter` from the static table. -/
def registryWF (cache : RegistryCache) : Prop :=
  ∀ name fc rl, ((name, fc), rl) ∈ cache →
    ∃ cfg, rateLimitConfig name = some cfg ∧ rl = limiterOf cfg fc

theorem cacheLookup_mem (name : String) (fc : Bool) (rl : RateLimiter)
    (cache : RegistryCache) (h : cacheLookup name fc cache = some rl) :
    ((name, fc), rl) ∈ cache := by
  induction cache with
  | nil => simp [cacheLookup] at h
  | cons e rest ih =>
    obtain ⟨k, v⟩ := e
    by_cases hk : k = (name, fc)
    · subst hk
      simp [cacheLookup] at h
      subst h
      exact List.mem_cons_self _ _
    · simp only [cacheLookup, if_neg hk] at h
      exact List.mem_cons_of_mem _ (ih h)

/-- Claim C9, counterexample: the name `"__doc__"` is not in the static tier
table, yet — because `getattr` finds the class docstring — `get_rate_limiter`
fails with the subscripting TypeError, not with the claimed
unknown-configuration ValueError. -/
theorem c9_unknown_name_counterexample :
    rateLimitConfig "__doc__" = none ∧
    get_rate_limiter ["__doc__"] "__doc__" true [] =
      .error RegistryError.subscriptError ∧
    get_rate_limiter ["__doc__"] "__doc__" true [] ≠
      .error (RegistryError.valueError
        ("Unknown rate limit config: " ++ "__doc__")) := by
  refine ⟨rfl, rfl, fun h => ?_⟩
  injection h with h2
  injection h2

/-- Claim C9 (amended): on a well-formed registry cache, a name that is
neither a tier entry nor another class attribute fails immediately with the
unknown-configuration ValueError; a name that hits a non-tier class attribute
(such as `"__doc__"`) still fails immediately, but with the subscripting
error instead; and a valid tier name returns the limiter built from the tier
data `max_requests`, `window_seconds` and key prefix — a second call with the
same `(tierName, failClosed)` pair returns the identical cached instance and
leaves the cache unchanged. -/
theorem c9_registry_singleton (dunders : List String) (name : String) (fc : Bool)
    (cache : RegistryCache) (hwf : registryWF cache) :
    (rateLimitConfig name = none → name ∉ dunders →
      get_rate_limiter dunders name fc cache =
        .error (.valueError ("Unknown rate limit config: " ++ name))) ∧
    (rateLimitConfig name = none → name ∈ dunders →
      get_rate_limiter dunders name fc cache =
        .error RegistryError.subscriptError) ∧
    (∀ cfg, rateLimitConfig name = some cfg →
      ∃ c1, get_rate_limiter dunders name fc cache = .ok (limiterOf cfg fc, c1) ∧
        get_rate_limiter dunders name fc c1 = .ok (limiterOf cfg fc, c1)) := by
  refine ⟨?_, ?_, ?_⟩
  · intro hnone hnd
    cases hlk : cacheLookup name fc cache with
    | some rl =>
      obtain ⟨cfg, hcfg, _⟩ := hwf name fc rl (cacheLookup_mem name fc rl cache hlk)
      rw [hnone] at hcfg
      cases hcfg
    | none =>
      unfold get_rate_limiter classGetattr
      rw [hlk, hnone, if_neg hnd]
  · intro hnone hd
    cases hlk : cacheLookup name fc cache with
    | some rl =>
      obtain ⟨cfg, hcfg, _⟩ := hwf name fc rl (cacheLookup_mem name fc rl cache hlk)
      rw [hnone] at hcfg
      cases hcfg
    | none =>
      unfold get_rate_limiter classGetattr
      rw [hlk, hnone, if_pos hd]
  · intro cfg hcfg
    cases hlk : cacheLookup name fc cache with
    | some rl =>
      obtain ⟨cfg2, hcfg2, hrl⟩ := hwf name fc rl (cacheLookup_mem name fc rl cache hlk)
      rw [hcfg] at hcfg2
      injection hcfg2 with hc
      subst hc
      subst hrl
      refine ⟨cache, ?_, ?_⟩ <;> (unfold get_rate_limiter; rw [hlk])
    | none =>
      refine ⟨((name, fc), limiterOf cfg fc) :: cache, ?_, ?_⟩
      · unfold get_rate_limiter classGetattr
        rw [hlk, hcfg]
      · unfold get_rate_limiter
        simp [cacheLookup]

/-- Witness for C9: starting from the empty cache, two successive GENERAL
requests both yield the limiter (60 req / 60 s, prefix "ratelimit:general"),
the second from the cache built by the first. -/
theorem c9_registry_singleton_witness :
    ∃ c1, get_rate_limiter ["__doc__"] "GENERAL" true [] =
        .ok (limiterOf (60, 60, "ratelimit:general") true, c1) ∧
      get_rate_limiter ["__doc__"] "GENERAL" true c1 =
        .ok (limiterOf (60, 60, "ratelimit:general") true, c1) := by
  have hwf : registryWF [] := by
    intro n f r h
    simp at h
  exact (c9_registry_singleton ["__doc__"] "GENERAL" true [] hwf).2.2
    (60, 60, "ratelimit:general") rfl

/-- Model of `get_combined_identifier`: the string ip:userId when a user id is given, else the
bare IP. -/
def get_combined_identifier (ip : String) (user_id : Option String) : String :=
  match user_id with
  | some uid => ip ++ ":" ++ uid
  | none => ip

/-- Model of `check_rate_limit_strict`: resolve the tier configuration (the registry
hands back a limiter built from the static table entry), run `check`, and
normalize the enum result to a boolean; the enum tag is returned alongside so
callers can distinguish "blocked" from "rate_limited" (the `result` metadata
key). -/
def check_rate_limit_strict (configName : String) (digest16 : String → String)
    (b : RedisBehavior) (instId : Nat) (now : Int) (identifier : String)
    (fc : Bool) (σ : Store) :
    Except String (Bool × RateLimitResult × RLMeta × Store) :=
  match rateLimitConfig configName with
  | none => .error ("Unknown rate limit config: " ++ configName)
  | some cfg =>
    let res := (limiterOf cfg fc).check digest16 b instId now identifier σ
    .ok (decide (res.1 = RateLimitResult.ALLOWED), res.1, res.2.1, res.2.2)

theorem check_rate_limit_strict_eq (configName : String) (cfg : Nat × Int × String)
    (digest16 : String → String) (b : RedisBehavior) (instId : Nat) (now : Int)
    (identifier : String) (fc : Bool) (σ : Store) (r : RateLimitResult) (m : RLMeta)
    (σ1 : Store)
    (hcfg : rateLimitConfig configName = some cfg)
    (hchk : (limiterOf cfg fc).check digest16 b instId now identifier σ = (r, m, σ1)) :
    check_rate_limit_strict configName digest16 b instId now identifier fc σ =
      .ok (decide (r = RateLimitResult.ALLOWED), r, m, σ1) := by
  simp only [check_rate_limit_strict, hcfg, hchk]

/-- The EMBEDDING tier limiter (20 req / 60 s, fail-closed), as the registry
builds it. -/
def embeddingLimiter : RateLimiter := limiterOf (20, 60, "ratelimit:embedding") true

/-- The EMBEDDING_DAILY tier limiter (500 req / 86400 s, fail-closed). -/
def embeddingDailyLimiter : RateLimiter :=
  limiterOf (500, 86400, "ratelimit:embedding_daily") true

/-- Model of `check_embedding_rate_limit`: the per-minute EMBEDDING tier on the
combined identifier first; if that passes and a user id is present, the
EMBEDDING_DAILY tier keyed by the user id alone.  `bE, iE` / `bD, iD` are the
store behavior and instance token of the respective limiter call; the store is
threaded from the first call into the second.  The `.error` arms are
unreachable: both tier names are in the static table. -/
def check_embedding_rate_limit (digest16 : String → String) (bE bD : RedisBehavior)
    (iE iD : Nat) (now : Int) (ip : String) (user_id : Option String) (σ : Store) :
    Bool × String :=
  let identifier := get_combined_identifier ip user_id
  match check_rate_limit_strict "EMBEDDING" digest16 bE iE now identifier true σ with
  | .error _ => (false, "")
  | .ok (allowed, r, m, σ1) =>
    if allowed = false then
      if r = RateLimitResult.BLOCKED then
        (false, "Too many requests. You are temporarily blocked.")
      else
        let d := m.resetAt - now
        (false, ("Embedding rate limit exceeded. Try again in " ++ toString d ++ " seconds."))
    else
      match user_id with
      | some uid =>
        match check_rate_limit_strict "EMBEDDING_DAILY" digest16 bD iD now uid true σ1 with
        | .error _ => (true, "")
        | .ok (allowed2, _, _, _) =>
          if allowed2 = false then
            (false, "Daily embedding quota exceeded. Try again tomorrow.")
          else (true, "")
      | none => (true, "")

/-- Claim C5: the composite embedding check runs the per-minute EMBEDDING tier
on the combined identifier; a blocked denial yields the temporary-block
message, an over-limit denial the retry-after message computed from
`resetAt - now`; if it passes and a user id is given the EMBEDDING_DAILY tier
is run keyed by the user id alone (not the IP) on the threaded store, denying
with the daily-quota message, and otherwise the call returns `(true, "")`. -/
theorem c5_embedding_composite (digest16 : String → String) (bE bD : RedisBehavior)
    (iE iD : Nat) (now : Int) (ip : String) (uo : Option String) (σ : Store)
    (r1 : RateLimitResult) (m1 : RLMeta) (σ1 : Store)
    (h1 : embeddingLimiter.check digest16 bE iE now (get_combined_identifier ip uo) σ =
      (r1, m1, σ1)) :
    (r1 = .BLOCKED →
      check_embedding_rate_limit digest16 bE bD iE iD now ip uo σ =
        (false, "Too many requests. You are temporarily blocked.")) ∧
    (r1 = .RATE_LIMITED → ∀ d : Int, d = m1.resetAt - now →
      check_embedding_rate_limit digest16 bE bD iE iD now ip uo σ =
        (false, ("Embedding rate limit exceeded. Try again in " ++ toString d ++ " seconds."))) ∧
    (r1 = .ALLOWED → uo = none →
      check_embedding_rate_limit digest16 bE bD iE iD now ip uo σ = (true, "")) ∧
    (r1 = .ALLOWED → ∀ uid, uo = some uid →
      ∀ r2 m2 σ2,
        embeddingDailyLimiter.check digest16 bD iD now uid σ1 = (r2, m2, σ2) →
        (r2 ≠ .ALLOWED →
          check_embedding_rate_limit digest16 bE bD iE iD now ip uo σ =
            (false, "Daily embedding quota exceeded. Try again tomorrow.")) ∧
        (r2 = .ALLOWED →
          check_embedding_rate_limit digest16 bE bD iE iD now ip uo σ =
            (true, ""))) := by
  have hs1 := check_rate_limit_strict_eq "EMBEDDING" (20, 60, "ratelimit:embedding")
    digest16 bE iE now (get_combined_identifier ip uo) true σ r1 m1 σ1 rfl h1
  refine ⟨?_, ?_, ?_, ?_⟩
  · intro hB
    subst hB
    simp only [check_embedding_rate_limit, hs1]
    rfl
  · intro hR d hd
    subst hR
    subst hd
    simp only [check_embedding_rate_limit, hs1]
    rfl
  · intro hA hnone
    subst hA
    subst hnone
    simp only [check_embedding_rate_limit, hs1]
    rfl
  · intro hA uid huo r2 m2 σ2 h2
    subst hA
    subst huo
    have hs2 := check_rate_limit_strict_eq "EMBEDDING_DAILY"
      (500, 86400, "ratelimit:embedding_daily") digest16 bD iD now uid true σ1
      r2 m2 σ2 rfl h2
    constructor
    · intro hne
      simp only [check_embedding_rate_limit, hs1, hs2]
      cases r2 with
      | ALLOWED => exact absurd rfl hne
      | RATE_LIMITED => rfl
      | BLOCKED => rfl
    · intro hA2
      subst hA2
      simp only [check_embedding_rate_limit, hs1, hs2]
      rfl

/-- Witness for C5 (the scenario shape given in the spec): user `u1` whose daily tier
denies (here: a block record on `ratelimit:embedding_daily:u1`) but whose
per-minute tier for `5.5.5.5:u1` is still open gets the daily-quota message. -/
theorem c5_embedding_composite_witness :
    check_embedding_rate_limit (fun s => s) rlOk rlOk 1 2 100 "5.5.5.5" (some "u1")
        (Store.update emptyStore "ratelimit:embedding_daily:u1"
          { emptyKeyState with blocked := some 1000 }) =
      (false, "Daily embedding quota exceeded. Try again tomorrow.") := by
  have h := c5_embedding_composite (fun s => s) rlOk rlOk 1 2 100 "5.5.5.5" (some "u1")
    (Store.update emptyStore "ratelimit:embedding_daily:u1"
      { emptyKeyState with blocked := some 1000 })
    RateLimitResult.ALLOWED { remaining := 19, resetAt := 160 }
    (Store.update (Store.update emptyStore "ratelimit:embedding_daily:u1"
        { emptyKeyState with blocked := some 1000 })
      "ratelimit:embedding:5.5.5.5:u1"
      { emptyKeyState with window := [(100, 1)], windowTTL := some 61 })
    rfl
  exact (h.2.2.2 rfl "u1" rfl RateLimitResult.BLOCKED
    { remaining := 0, resetAt := 1000, blockedUntil := some 1000 }
    (Store.update (Store.update emptyStore "ratelimit:embedding_daily:u1"
        { emptyKeyState with blocked := some 1000 })
      "ratelimit:embedding:5.5.5.5:u1"
      { emptyKeyState with window := [(100, 1)], windowTTL := some 61 })
    rfl).1 (by decide)

/-- Event type enumeration `SecurityEventType` (monitoring.py). -/
inductive SecurityEventType where
  | AUTH_SUCCESS
  | AUTH_FAILURE
  | AUTH_ADMIN_LOGIN
  | TOKEN_REFRESH
  | TOKEN_REVOKED
  | RATE_LIMIT_HIT
  | RATE_LIMIT_BLOCKED
  | SUSPICIOUS_INPUT
  | INVALID_TOKEN
  | UNAUTHORIZED_ACCESS
  | WEBHOOK_RECEIVED
  | WEBHOOK_INVALID
  | WEBHOOK_SUCCESS
  | ADMIN_ACTION
  | GAME_CREATED
  | GAME_JOINED
  | EMBEDDING_QUOTA_WARNING
  | EMBEDDING_QUOTA_EXCEEDED
  deriving DecidableEq, Repr

/-- The `.value` strings of the enum, used in the `security_events:` keys. -/
def eventTypeValue : SecurityEventType → String
  | .AUTH_SUCCESS => "auth_success"
  | .AUTH_FAILURE => "auth_failure"
  | .AUTH_ADMIN_LOGIN => "auth_admin_login"
  | .TOKEN_REFRESH => "token_refresh"
  | .TOKEN_REVOKED => "token_revoked"
  | .RATE_LIMIT_HIT => "rate_limit_hit"
  | .RATE_LIMIT_BLOCKED => "rate_limit_blocked"
  | .SUSPICIOUS_INPUT => "suspicious_input"
  | .INVALID_TOKEN => "invalid_token"
  | .UNAUTHORIZED_ACCESS => "unauthorized_access"
  | .WEBHOOK_RECEIVED => "webhook_received"
  | .WEBHOOK_INVALID => "webhook_invalid"
  | .WEBHOOK_SUCCESS => "webhook_success"
  | .ADMIN_ACTION => "admin_action"
  | .GAME_CREATED => "game_created"
  | .GAME_JOINED => "game_joined"
  | .EMBEDDING_QUOTA_WARNING => "embedding_quota_warning"
  | .EMBEDDING_QUOTA_EXCEEDED => "embedding_quota_exceeded"

structure SecurityEvent where
  event_type : SecurityEventType
  timestamp : Int
  ip_address : Option String
  user_id : Option String
  details : List (String × String)
  severity : String
  deriving DecidableEq, Repr

/-- An entry of the bounded `security_alerts` list (`message` plus the
`{"ip", "count"}` details dict and the timestamp). -/
structure MonAlert where
  message : String
  ip : String
  count : Nat
  timestamp : Int
  deriving DecidableEq, Repr

/-- Monitoring-side store state: the `security_alerts:…` per-IP counters (0 =
absent) with their TTLs, the bounded alert list (newest first), and the
per-type event logs (newest first) with their TTLs. -/
structure MonState where
  counters : String → Nat
  counterTTL : String → Option Int
  alerts : List MonAlert
  eventsLog : String → List SecurityEvent
  eventsTTL : String → Option Int

/-- Fault model for one `log_event` call; each `…Fails` flag makes the
corresponding store call raise. -/
structure MonBehavior where
  available : Bool
  zaddFails : Bool
  trimFails : Bool
  expireFails : Bool
  incrFails : Bool
  expireCounterFails : Bool
  lpushFails : Bool
  deriving DecidableEq, Repr

/-- Healthy monitoring store. -/
def monOk : MonBehavior :=
  { available := true, zaddFails := false, trimFails := false, expireFails := false,
    incrFails := false, expireCounterFails := false, lpushFails := false }

/-- Model of `SecurityMonitor._trigger_alert`: console print, then best-effort
`LPUSH security_alerts` and `LTRIM 0 99` (newest first, keep 100); its own
store failures are swallowed. -/
def trigger_alert (b : MonBehavior) (now : Int) (message ip : String) (count : Nat)
    (st : MonState) : MonState :=
  if b.available = false then st
  else if b.lpushFails then st
  else
    { st with alerts :=
        ({ message := message, ip := ip, count := count, timestamp := now } ::
          st.alerts).take 100 }

/-- One alert rule of `_check_alert_conditions`: `INCR` the per-IP
counter, `EXPIRE` it to 300 s, and alert when the incremented count is at or
above the threshold.  A raise at `INCR` leaves the state unchanged; a raise at
`EXPIRE` keeps the increment but skips the threshold check (the enclosing
`except` swallows either). -/
def alertCounterStep (b : MonBehavior) (now : Int) (keyStr message ip : String)
    (threshold : Nat) (st : MonState) : MonState :=
  if b.incrFails then st
  else
    let c := st.counters keyStr + 1
    let st1 : MonState :=
      { st with counters := fun k => if k = keyStr then c else st.counters k }
    if b.expireCounterFails then st1
    else
      let st2 : MonState :=
        { st1 with counterTTL :=
            fun k => if k = keyStr then some 300 else st1.counterTTL k }
      if c ≥ threshold then trigger_alert b now message ip c st2 else st2

/-- Model of `SecurityMonitor._check_alert_conditions`: three independent per-IP rules
— RATE_LIMIT_HIT at threshold 10, AUTH_FAILURE at 5, WEBHOOK_INVALID at 3 —
each on its own `security_alerts:…:{ip}` counter with the 300 s pattern
window as TTL; every other event type (or a missing IP) does nothing. -/
def check_alert_conditions (b : MonBehavior) (now : Int) (e : SecurityEvent)
    (st : MonState) : MonState :=
  if b.available = false then st
  else
    match e.event_type, e.ip_address with
    | .RATE_LIMIT_HIT, some ip =>
      alertCounterStep b now ("security_alerts:ratelimit:" ++ ip)
        ("Rate limit abuse detected from IP " ++ ip) ip 10 st
    | .AUTH_FAILURE, some ip =>
      alertCounterStep b now ("security_alerts:authfail:" ++ ip)
        ("Possible brute force attack from IP " ++ ip) ip 5 st
    | .WEBHOOK_INVALID, some ip =>
      alertCounterStep b now ("security_alerts:webhook:" ++ ip)
        ("Invalid webhook attempts from IP " ++ ip) ip 3 st
    | _, _ => st

/-- The body of the try block of `log_event`: `ZADD` the event into the log
of its type (newest first), `ZREMRANGEBYRANK` down to the last 1000, `EXPIRE` to 7
days, then evaluate the alert rules.  Returns the state reached together with
the error of the first raising step, if any. -/
def persistPipeline (b : MonBehavior) (now : Int) (e : SecurityEvent)
    (st : MonState) : MonState × Option String :=
  if b.zaddFails then (st, some "zadd failed")
  else
    let key := "security_events:" ++ eventTypeValue e.event_type
    let st1 : MonState :=
      { st with eventsLog :=
          fun k => if k = key then e :: st.eventsLog k else st.eventsLog k }
    if b.trimFails then (st1, some "zremrangebyrank failed")
    else
      let st2 : MonState :=
        { st1 with eventsLog :=
            fun k => if k = key then (st1.eventsLog k).take 1000 else st1.eventsLog k }
      if b.expireFails then (st2, some "expire failed")
      else
        let st3 : MonState :=
          { st2 with eventsTTL :=
              fun k => if k = key then some 604800 else st2.eventsTTL k }
        (check_alert_conditions b now e st3, none)

/-- Model of `SecurityMonitor.log_event`: the structured console line is always
emitted (the `Bool`); with a reachable store the persistence pipeline runs
inside a try whose except swallows any error — the error component of
`persistPipeline` is discarded — so the call itself never yields `.error`. -/
def log_event (b : MonBehavior) (now : Int) (e : SecurityEvent) (st : MonState) :
    Except String (Bool × MonState) :=
  if b.available = false then .ok (true, st)
  else .ok (true, (persistPipeline b now e st).1)

/-- Result state of `log_event` (which, per C7, always returns `.ok`). -/
def logEventState (b : MonBehavior) (now : Int) (e : SecurityEvent) (st : MonState) :
    MonState :=
  match log_event b now e st with
  | .ok (_, st1) => st1
  | .error _ => st

/-- Claim C7: `log_event` never raises back to the caller: for every store
behavior (any combination of persistence and alert-evaluation failures),
every event and every state, it returns normally with the structured console
log line emitted. -/
theorem c7_log_event_never_raises (b : MonBehavior) (now : Int) (e : SecurityEvent)
    (st : MonState) :
    ∃ st1, log_event b now e st = .ok (true, st1) := by
  unfold log_event
  by_cases hA : b.available = false
  · rw [if_pos hA]
    exact ⟨st, rfl⟩
  · rw [if_neg hA]
    exact ⟨(persistPipeline b now e st).1, rfl⟩

theorem alertCounterStep_monOk (now : Int) (keyStr message ip : String)
    (threshold : Nat) (st : MonState) :
    (alertCounterStep monOk now keyStr message ip threshold st).counters keyStr =
      st.counters keyStr + 1 ∧
    (alertCounterStep monOk now keyStr message ip threshold st).counterTTL keyStr =
      some 300 ∧
    (∀ k, k ≠ keyStr →
      (alertCounterStep monOk now keyStr message ip threshold st).counters k =
        st.counters k) ∧
    (st.counters keyStr + 1 ≥ threshold →
      (alertCounterStep monOk now keyStr message ip threshold st).alerts =
        ({ message := message, ip := ip, count := st.counters keyStr + 1,
           timestamp := now } :: st.alerts).take 100) ∧
    (st.counters keyStr + 1 < threshold →
      (alertCounterStep monOk now keyStr message ip threshold st).alerts =
        st.alerts) := by
  by_cases hθ : st.counters keyStr + 1 ≥ threshold
  · unfold alertCounterStep trigger_alert
    simp only [monOk, Bool.false_eq_true, Bool.true_eq_false, if_false]
    rw [if_pos hθ]
    exact ⟨by simp, by simp, fun k hk => by simp [hk], fun _ => rfl,
      fun hlt => absurd hθ (by omega)⟩
  · unfold alertCounterStep
    simp only [monOk, Bool.false_eq_true, Bool.true_eq_false, if_false]
    rw [if_neg hθ]
    exact ⟨by simp, by simp, fun k hk => by simp [hk], fun hge => absurd hge hθ,
      fun _ => rfl⟩

/-- Claim C6: under a healthy store, logging an event carrying an IP address
increments exactly the per-IP counter of its own type with a fresh 300 s TTL and
triggers an alert exactly when the incremented count is at or above the
per-type threshold (RATE_LIMIT_HIT 10, AUTH_FAILURE 5, WEBHOOK_INVALID 3) — on
every matching event, with no deduplication, so a further matching event
before the counter expires alerts again; all other counter keys are
untouched, and events of non-monitored types change no counter and no alert. -/
theorem c6_alert_thresholds (now : Int) (ip : String) (e : SecurityEvent)
    (st : MonState) (hip : e.ip_address = some ip) :
    (e.event_type = .RATE_LIMIT_HIT →
      (logEventState monOk now e st).counters ("security_alerts:ratelimit:" ++ ip) =
        st.counters ("security_alerts:ratelimit:" ++ ip) + 1 ∧
      (logEventState monOk now e st).counterTTL ("security_alerts:ratelimit:" ++ ip) =
        some 300 ∧
      (∀ k, k ≠ "security_alerts:ratelimit:" ++ ip →
        (logEventState monOk now e st).counters k = st.counters k) ∧
      (st.counters ("security_alerts:ratelimit:" ++ ip) + 1 ≥ 10 →
        (logEventState monOk now e st).alerts =
          ({ message := "Rate limit abuse detected from IP " ++ ip, ip := ip,
             count := st.counters ("security_alerts:ratelimit:" ++ ip) + 1,
             timestamp := now } :: st.alerts).take 100) ∧
      (st.counters ("security_alerts:ratelimit:" ++ ip) + 1 < 10 →
        (logEventState monOk now e st).alerts = st.alerts)) ∧
    (e.event_type = .AUTH_FAILURE →
      (logEventState monOk now e st).counters ("security_alerts:authfail:" ++ ip) =
        st.counters ("security_alerts:authfail:" ++ ip) + 1 ∧
      (logEventState monOk now e st).counterTTL ("security_alerts:authfail:" ++ ip) =
        some 300 ∧
      (∀ k, k ≠ "security_alerts:authfail:" ++ ip →
        (logEventState monOk now e st).counters k = st.counters k) ∧
      (st.counters ("security_alerts:authfail:" ++ ip) + 1 ≥ 5 →
        (logEventState monOk now e st).alerts =
          ({ message := "Possible brute force attack from IP " ++ ip, ip := ip,
             count := st.counters ("security_alerts:authfail:" ++ ip) + 1,
             timestamp := now } :: st.alerts).take 100) ∧
      (st.counters ("security_alerts:authfail:" ++ ip) + 1 < 5 →
        (logEventState monOk now e st).alerts = st.alerts)) ∧
    (e.event_type = .WEBHOOK_INVALID →
      (logEventState monOk now e st).counters ("security_alerts:webhook:" ++ ip) =
        st.counters ("security_alerts:webhook:" ++ ip) + 1 ∧
      (logEventState monOk now e st).counterTTL ("security_alerts:webhook:" ++ ip) =
        some 300 ∧
      (∀ k, k ≠ "security_alerts:webhook:" ++ ip →
        (logEventState monOk now e st).counters k = st.counters k) ∧
      (st.counters ("security_alerts:webhook:" ++ ip) + 1 ≥ 3 →
        (logEventState monOk now e st).alerts =
          ({ message := "Invalid webhook attempts from IP " ++ ip, ip := ip,
             count := st.counters ("security_alerts:webhook:" ++ ip) + 1,
             timestamp := now } :: st.alerts).take 100) ∧
      (st.counters ("security_alerts:webhook:" ++ ip) + 1 < 3 →
        (logEventState monOk now e st).alerts = st.alerts)) ∧
    (e.event_type ≠ .RATE_LIMIT_HIT → e.event_type ≠ .AUTH_FAILURE →
      e.event_type ≠ .WEBHOOK_INVALID →
      (logEventState monOk now e st).counters = st.counters ∧
      (logEventState monOk now e st).alerts = st.alerts) := by
  obtain ⟨et, ts, ipa, uid, det, sev⟩ := e
  replace hip : ipa = some ip := hip
  subst hip
  refine ⟨?_, ?_, ?_, ?_⟩
  · intro ht
    replace ht : et = .RATE_LIMIT_HIT := ht
    subst ht
    exact alertCounterStep_monOk now _ _ ip 10 _
  · intro ht
    replace ht : et = .AUTH_FAILURE := ht
    subst ht
    exact alertCounterStep_monOk now _ _ ip 5 _
  · intro ht
    replace ht : et = .WEBHOOK_INVALID := ht
    subst ht
    exact alertCounterStep_monOk now _ _ ip 3 _
  · intro h1 h2 h3
    cases et <;>
      first
        | exact absurd rfl h1
        | exact absurd rfl h2
        | exact absurd rfl h3
        | exact ⟨rfl, rfl⟩

/-- Witness for C6: with the `1.2.3.4` rate-limit counter at 9, logging the
10th RATE_LIMIT_HIT from that IP yields exactly one alert with count 10. -/
theorem c6_alert_thresholds_witness :
    (logEventState monOk 500
        { event_type := .RATE_LIMIT_HIT, timestamp := 500,
          ip_address := some "1.2.3.4", user_id := none, details := [],
          severity := "warning" }
        { counters := fun k => if k = "security_alerts:ratelimit:1.2.3.4" then 9 else 0,
          counterTTL := fun _ => none, alerts := [], eventsLog := fun _ => [],
          eventsTTL := fun _ => none }).alerts =
      [{ message := "Rate limit abuse detected from IP 1.2.3.4", ip := "1.2.3.4",
         count := 10, timestamp := 500 }] := by
  have h := (c6_alert_thresholds 500 "1.2.3.4"
    { event_type := .RATE_LIMIT_HIT, timestamp := 500, ip_address := some "1.2.3.4",
      user_id := none, details := [], severity := "warning" }
    { counters := fun k => if k = "security_alerts:ratelimit:1.2.3.4" then 9 else 0,
      counterTTL := fun _ => none, alerts := [], eventsLog := fun _ => [],
      eventsTTL := fun _ => none } rfl).1 rfl
  exact h.2.2.2.1 (by decide)
